import Mathlib

/-!
Shallow embedding of the SheetFreak range resolver, color parser and
batch-request builders (src/api/sheets-client.ts and
src/commands/format.ts), with theorems checking the specification's
claims about them.

Strings are processed through their character lists with structural
functions, mirroring the JavaScript string operations
(`split`, `substring`, `replace`, `charCodeAt`, `toLowerCase`) exactly.
JavaScript numbers are modelled as `Int`/`ℚ`; a `NaN` produced by
`parseInt` on a non-digit is modelled as `Option.none`.
-/

namespace SheetFreak

/-- The `Color` interface of `src/types/index.ts`: four optional numeric
channels (`red`, `green`, `blue`, `alpha`), each a JS number in `[0,1]`. -/
structure Color where
  red : Option ℚ := none
  green : Option ℚ := none
  blue : Option ℚ := none
  alpha : Option ℚ := none
deriving DecidableEq, Repr

/-- A color argument as accepted by `SheetsClient.parseColor`:
either a hex string or a `Color` object (`string | Color` in the source). -/
inductive ColorInput where
  | str (s : String)
  | col (c : Color)
deriving DecidableEq, Repr

/-- The `SheetFreakError` class of `src/utils/errors.ts`: an error code,
a message, and optional details. -/
structure SFError where
  code : String
  message : String
  details : Option String := none
deriving DecidableEq, Repr

/-- `SheetFreakError.notFound(resource, id)`: code `NOT_FOUND`, message
`"<resource> not found"`, details carrying the id. -/
def SFError.notFound (resource id : String) : SFError :=
  { code := "NOT_FOUND", message := resource ++ " not found", details := some id }

/-- `new SheetFreakError('INVALID_INPUT', message)` as thrown by
`rangeToGridRange` and `parseColorInput`. -/
def SFError.invalidInput (message : String) : SFError :=
  { code := "INVALID_INPUT", message := message }

/-! ## Character predicates and numeric string parsing -/

/-- Value of a hex digit (`[0-9A-Fa-f]`), or `none` for any other char. -/
def hexDigitVal (c : Char) : Option Nat :=
  if '0' ≤ c ∧ c ≤ '9' then some (c.toNat - 48)
  else if 'a' ≤ c ∧ c ≤ 'f' then some (c.toNat - 87)
  else if 'A' ≤ c ∧ c ≤ 'F' then some (c.toNat - 55)
  else none

def isHexDigitChar (c : Char) : Bool := (hexDigitVal c).isSome

def isUpperAZ (c : Char) : Bool := 'A' ≤ c && c ≤ 'Z'

def isDigit09 (c : Char) : Bool := '0' ≤ c && c ≤ '9'

/-- Accumulate further hex digits, stopping at the first non-digit,
like `parseInt(s, 16)` does after its first digit. -/
def hexRestVal : List Char → Nat → Nat
  | [], acc => acc
  | c :: cs, acc =>
    match hexDigitVal c with
    | none => acc
    | some d => hexRestVal cs (acc * 16 + d)

/-- `parseInt(s, 16)`: parse the maximal leading run of hex digits;
`none` models the `NaN` returned when the string starts with a non-digit
(or is empty). -/
def parseIntHex (s : String) : Option Nat :=
  match s.data with
  | [] => none
  | c :: cs =>
    match hexDigitVal c with
    | none => none
    | some d => some (hexRestVal cs d)

/-- `parseInt(s)` on an all-decimal-digit string (the regex groups
`\d+` fed to it are always such). -/
def decVal (l : List Char) : Nat :=
  l.foldl (fun acc c => acc * 10 + (c.toNat - 48)) 0

/-- `s.substring(i, j)` for `i ≤ j`: the characters in positions `[i, j)`. -/
def jsSubstring (s : String) (i j : Nat) : String :=
  ⟨(s.data.drop i).take (j - i)⟩

/-- `s.replace('#', '')`: remove the first occurrence of a character. -/
def removeFirst (c : Char) : List Char → List Char
  | [] => []
  | x :: xs => if x = c then xs else x :: removeFirst c xs

/-- `l.map Char.toLower`, modelling `s.toLowerCase()` on the ASCII
tokens the color parser receives. -/
def listToLower (l : List Char) : List Char := l.map Char.toLower

/-- JS `range.split("!")` (single-character separator): splits into the
(always non-empty) list of separator-free segments. -/
def splitOnBang : List Char → List (List Char)
  | [] => [[]]
  | c :: cs =>
    if c = '!' then [] :: splitOnBang cs
    else
      match splitOnBang cs with
      | [] => [[c]]
      | p :: ps => (c :: p) :: ps

/-! ## SheetsClient helpers (src/api/sheets-client.ts) -/

/-- The hex-parsing block (`colorInput.replace('#', '')`, three
`parseInt(hex.substring(2k, 2k+2), 16) / 255` channels, alpha `1`) that
appears verbatim in both `SheetsClient.parseColor` and
`parseColorInput`.  A channel whose `parseInt` yields `NaN` is `none`. -/
def hexStringToColor (s : String) : Color :=
  let hex : String := ⟨removeFirst '#' s.data⟩
  { red := (parseIntHex (jsSubstring hex 0 2)).map (fun n => (n : ℚ) / 255)
    green := (parseIntHex (jsSubstring hex 2 4)).map (fun n => (n : ℚ) / 255)
    blue := (parseIntHex (jsSubstring hex 4 6)).map (fun n => (n : ℚ) / 255)
    alpha := some 1 }

/-- `SheetsClient.parseColor`: a string is parsed as hex `#RRGGBB`;
a `Color` object passes through unchanged. -/
def SheetsClient.parseColor : ColorInput → Color
  | .str s => hexStringToColor s
  | .col c => c

/-- `SheetsClient.columnToIndex` on a character list: fold
`index = index*26 + (charCode - 'A'.charCode + 1)` left to right,
then subtract 1. -/
def columnToIndexL (l : List Char) : Int :=
  (l.foldl (fun index c => index * 26 + ((c.toNat : Int) - 65 + 1)) 0) - 1

/-- `SheetsClient.columnToIndex(col)`. -/
def columnToIndex (col : String) : Int := columnToIndexL col.data

/-- The zero-based, end-exclusive `GridRange` produced by
`rangeToGridRange`. -/
structure GridRange where
  sheetId : Int
  startRowIndex : Int
  endRowIndex : Int
  startColumnIndex : Int
  endColumnIndex : Int
deriving DecidableEq, Repr

/-- The anchored regex `^([A-Z]+)(\d+):([A-Z]+)(\d+)$` as a
deterministic parse (the four character classes are mutually disjoint,
so greedy matching is deterministic): returns the four capture groups
or `none` when the input does not match exactly. -/
def matchA1Pair (l : List Char) : Option (List Char × List Char × List Char × List Char) :=
  let l1 := l.takeWhile isUpperAZ
  let rest1 := l.dropWhile isUpperAZ
  let d1 := rest1.takeWhile isDigit09
  let rest2 := rest1.dropWhile isDigit09
  match rest2 with
  | [] => none
  | c :: rest3 =>
    if c = ':' then
      let l2 := rest3.takeWhile isUpperAZ
      let rest4 := rest3.dropWhile isUpperAZ
      let d2 := rest4.takeWhile isDigit09
      let rest5 := rest4.dropWhile isDigit09
      if l1 ≠ [] ∧ d1 ≠ [] ∧ l2 ≠ [] ∧ d2 ≠ [] ∧ rest5 = [] then
        some (l1, d1, l2, d2)
      else none
    else none

/-- `SheetsClient.rangeToGridRange(spreadsheetId, range)`, with the
sheet-list lookup (`listSheets` + `find` by exact title) abstracted as
`lookup : String → Option Int`.  Mirrors the source order: split on
`!`; `parts[0]` (if two or more parts and truthy, i.e. non-empty) is
the sheet title looked up verbatim, else sheet id `0`; then the A1 pair
regex; then the zero-based end-exclusive bounds. -/
def rangeToGridRange (lookup : String → Option Int) (range : String) :
    Except SFError GridRange :=
  let parts := splitOnBang range.data
  let sheetTitle : Option (List Char) :=
    match parts with
    | p :: _ :: _ => some p
    | _ => none
  let a1Range : List Char :=
    match parts with
    | _ :: q :: _ => q
    | p :: _ => p
    | [] => []
  let sheetIdE : Except SFError Int :=
    match sheetTitle with
    | some t =>
      if t = [] then Except.ok 0
      else
        match lookup ⟨t⟩ with
        | some sid => Except.ok sid
        | none => Except.error (SFError.notFound "Sheet" ⟨t⟩)
    | none => Except.ok 0
  match sheetIdE with
  | Except.error e => Except.error e
  | Except.ok sheetId =>
    match matchA1Pair a1Range with
    | none =>
      Except.error (SFError.invalidInput
        ("Invalid range format: " ++ range ++ ". Use A1:B10 notation"))
    | some (c1, d1, c2, d2) =>
      Except.ok
        { sheetId := sheetId
          startRowIndex := (decVal d1 : Int) - 1
          endRowIndex := (decVal d2 : Int)
          startColumnIndex := columnToIndexL c1
          endColumnIndex := columnToIndexL c2 + 1 }

/-- Modelled from the spec: the repository has no index-to-letters
converter under src/; §8's round-trip property needs one.  Following
the spec's base-26 scheme (`A`→0 … `Z`→25, `AA`→26, …), this is
bijective base 26 of `i+1`, most significant letter first.  Structural
recursion on a fuel argument that starts at `i+1` (the quotient shrinks
at every step, so the fuel never runs out). -/
def indexToColumnGo : Nat → Nat → List Char
  | 0, _ => []
  | _, 0 => []
  | fuel + 1, n + 1 => indexToColumnGo fuel (n / 26) ++ [Char.ofNat (65 + n % 26)]

/-- Modelled from the spec: letter sequence of zero-based column `i`. -/
def indexToColumn (i : Nat) : String := ⟨indexToColumnGo (i + 1) (i + 1)⟩

/-! ## Cell format specs and the formatCells request builder -/

/-- The `TextFormat` interface of `src/types/index.ts`.  `foregroundColor`
is fed to `parseColor`, which accepts a hex string or a `Color` object,
so it is modelled as a `ColorInput` (JSON-supplied specs can carry
either). -/
structure TextFormat where
  bold : Option Bool := none
  italic : Option Bool := none
  underline : Option Bool := none
  strikethrough : Option Bool := none
  fontSize : Option ℚ := none
  fontFamily : Option String := none
  foregroundColor : Option ColorInput := none
deriving DecidableEq, Repr

/-- The `numberFormat` field of `CellFormat`. -/
structure NumberFormat where
  type : Option String := none
  pattern : Option String := none
deriving DecidableEq, Repr

/-- The `CellFormat` interface of `src/types/index.ts`, with every field
independently optional. -/
structure CellFormat where
  backgroundColor : Option ColorInput := none
  textFormat : Option TextFormat := none
  horizontalAlignment : Option String := none
  verticalAlignment : Option String := none
  wrapStrategy : Option String := none
  numberFormat : Option NumberFormat := none
deriving DecidableEq, Repr

/-- JS truthiness of an optional color argument: absent is falsy, an
empty string is falsy, any other string and any object is truthy. -/
def ciTruthy : Option ColorInput → Bool
  | none => false
  | some (ColorInput.str s) => !(s == "")
  | some (ColorInput.col _) => true

/-- JS truthiness of an optional string: absent and `""` are falsy. -/
def strTruthy : Option String → Bool
  | none => false
  | some s => !(s == "")

/-- JS truthiness of an optional number: absent and `0` are falsy. -/
def numTruthy : Option ℚ → Bool
  | none => false
  | some q => !(q == 0)

/-- The nested `textFormat` object of the emitted request payload. -/
structure TextFormatPayload where
  bold : Option Bool := none
  italic : Option Bool := none
  underline : Option Bool := none
  strikethrough : Option Bool := none
  fontSize : Option ℚ := none
  fontFamily : Option String := none
  foregroundColor : Option Color := none
deriving DecidableEq, Repr

/-- The `userEnteredFormat` request payload assembled by `formatCells`:
only fields the code assigned are `some`. -/
structure CellFormatPayload where
  backgroundColor : Option Color := none
  textFormat : Option TextFormatPayload := none
  horizontalAlignment : Option String := none
  verticalAlignment : Option String := none
  wrapStrategy : Option String := none
  numberFormat : Option NumberFormat := none
deriving DecidableEq, Repr

/-- The `textFormat` block of `formatCells`: the four boolean styles are
copied when not `undefined` (`!== undefined` in the source); `fontSize`,
`fontFamily` and `foregroundColor` when truthy; mask entries are pushed
in the source's evaluation order. -/
def buildTextFormat (tf : TextFormat) : TextFormatPayload × List String :=
  ( { bold := tf.bold
      italic := tf.italic
      underline := tf.underline
      strikethrough := tf.strikethrough
      fontSize := if numTruthy tf.fontSize then tf.fontSize else none
      fontFamily := if strTruthy tf.fontFamily then tf.fontFamily else none
      foregroundColor :=
        if ciTruthy tf.foregroundColor then tf.foregroundColor.map SheetsClient.parseColor
        else none }
  , (if tf.bold.isSome then ["textFormat.bold"] else [])
    ++ ((if tf.italic.isSome then ["textFormat.italic"] else [])
    ++ ((if tf.underline.isSome then ["textFormat.underline"] else [])
    ++ ((if tf.strikethrough.isSome then ["textFormat.strikethrough"] else [])
    ++ ((if numTruthy tf.fontSize then ["textFormat.fontSize"] else [])
    ++ ((if strTruthy tf.fontFamily then ["textFormat.fontFamily"] else [])
    ++ (if ciTruthy tf.foregroundColor then ["textFormat.foregroundColor"] else [])))))) )

/-- The body of `SheetsClient.formatCells` that builds
`cellFormatRequest` and `fields`: each input field is mirrored into the
payload when truthy (booleans inside `textFormat`: when defined), and
its mask name appended in the source's evaluation order.  The
`textFormat` object is created (empty) whenever the input has one. -/
def buildCellFormatRequest (format : CellFormat) : CellFormatPayload × List String :=
  ( { backgroundColor :=
        if ciTruthy format.backgroundColor then format.backgroundColor.map SheetsClient.parseColor
        else none
      textFormat := format.textFormat.map (fun tf => (buildTextFormat tf).1)
      horizontalAlignment :=
        if strTruthy format.horizontalAlignment then format.horizontalAlignment else none
      verticalAlignment :=
        if strTruthy format.verticalAlignment then format.verticalAlignment else none
      wrapStrategy :=
        if strTruthy format.wrapStrategy then format.wrapStrategy else none
      numberFormat := format.numberFormat }
  , (if ciTruthy format.backgroundColor then ["backgroundColor"] else [])
    ++ ((match format.textFormat with
         | none => []
         | some tf => (buildTextFormat tf).2)
    ++ ((if strTruthy format.horizontalAlignment then ["horizontalAlignment"] else [])
    ++ ((if strTruthy format.verticalAlignment then ["verticalAlignment"] else [])
    ++ ((if strTruthy format.wrapStrategy then ["wrapStrategy"] else [])
    ++ (if format.numberFormat.isSome then ["numberFormat"] else []))))) )

/-- `fields.join(",")`. -/
def joinComma : List String → String
  | [] => ""
  | [s] => s
  | s :: rest => s ++ "," ++ joinComma rest

/-- The single `repeatCell` request that `formatCells` passes to
`batchUpdate`. -/
structure RepeatCellRequest where
  range : GridRange
  cell : CellFormatPayload
  fields : String
deriving DecidableEq, Repr

/-- `SheetsClient.formatCells`: resolve the range, build the payload and
mask, and issue one `repeatCell` request (the network call is abstracted
as the returned request list). -/
def formatCellsRequests (lookup : String → Option Int) (range : String)
    (format : CellFormat) : Except SFError (List RepeatCellRequest) :=
  match rangeToGridRange lookup range with
  | Except.error e => Except.error e
  | Except.ok gridRange =>
    let built := buildCellFormatRequest format
    Except.ok [{ range := gridRange, cell := built.1,
                 fields := "userEnteredFormat(" ++ joinComma built.2 ++ ")" }]

/-! ## Borders and the applyBorders request builder -/

/-- The `BorderStyle` interface of `src/types/index.ts` (style and color
both optional; the color may be a hex string or a `Color`). -/
structure BorderStyleSpec where
  style : Option String := none
  color : Option ColorInput := none
deriving DecidableEq, Repr

/-- The `Borders` interface: up to four independently optional edges. -/
structure Borders where
  top : Option BorderStyleSpec := none
  bottom : Option BorderStyleSpec := none
  left : Option BorderStyleSpec := none
  right : Option BorderStyleSpec := none
deriving DecidableEq, Repr

/-- One emitted edge of the `updateBorders` request. -/
structure BorderEdgePayload where
  style : String
  color : Color
deriving DecidableEq, Repr

/-- The `updateBorders` request: only edges present in the input are
set. -/
structure UpdateBordersRequest where
  range : GridRange
  top : Option BorderEdgePayload := none
  bottom : Option BorderEdgePayload := none
  left : Option BorderEdgePayload := none
  right : Option BorderEdgePayload := none
deriving DecidableEq, Repr

/-- One edge as built by `applyBorders`:
`style: edge.style || "SOLID"` (falsy style defaults to `"SOLID"`) and
`color: edge.color ? parseColor(edge.color) : { red: 0, green: 0, blue: 0 }`
— note the default black has no alpha channel. -/
def buildBorderEdge (edge : BorderStyleSpec) : BorderEdgePayload :=
  { style :=
      match edge.style with
      | some s => if s = "" then "SOLID" else s
      | none => "SOLID"
    color :=
      match edge.color with
      | some (ColorInput.str s) =>
        if s = "" then { red := some 0, green := some 0, blue := some 0 }
        else SheetsClient.parseColor (ColorInput.str s)
      | some (ColorInput.col c) => SheetsClient.parseColor (ColorInput.col c)
      | none => { red := some 0, green := some 0, blue := some 0 } }

/-- `SheetsClient.applyBorders`: resolve the range and emit one
`updateBorders` request whose edges are exactly those present in the
input spec. -/
def applyBordersRequests (lookup : String → Option Int) (range : String)
    (borders : Borders) : Except SFError (List UpdateBordersRequest) :=
  match rangeToGridRange lookup range with
  | Except.error e => Except.error e
  | Except.ok gridRange =>
    Except.ok [{ range := gridRange
                 top := borders.top.map buildBorderEdge
                 bottom := borders.bottom.map buildBorderEdge
                 left := borders.left.map buildBorderEdge
                 right := borders.right.map buildBorderEdge }]

/-! ## The CLI color parser (src/commands/format.ts) -/

/-- The fixed twelve-entry named color table of `parseColorInput`. -/
def namedColors : List (String × Color) :=
  [ ("red", { red := some 1, green := some 0, blue := some 0, alpha := some 1 })
  , ("green", { red := some 0, green := some 1, blue := some 0, alpha := some 1 })
  , ("blue", { red := some 0, green := some 0, blue := some 1, alpha := some 1 })
  , ("yellow", { red := some 1, green := some 1, blue := some 0, alpha := some 1 })
  , ("orange", { red := some 1, green := some 0.65, blue := some 0, alpha := some 1 })
  , ("purple", { red := some 0.5, green := some 0, blue := some 0.5, alpha := some 1 })
  , ("pink", { red := some 1, green := some 0.75, blue := some 0.8, alpha := some 1 })
  , ("white", { red := some 1, green := some 1, blue := some 1, alpha := some 1 })
  , ("black", { red := some 0, green := some 0, blue := some 0, alpha := some 1 })
  , ("gray", { red := some 0.5, green := some 0.5, blue := some 0.5, alpha := some 1 })
  , ("lightgray", { red := some 0.83, green := some 0.83, blue := some 0.83, alpha := some 1 })
  , ("darkgray", { red := some 0.66, green := some 0.66, blue := some 0.66, alpha := some 1 }) ]

/-- What a JS property access on the `namedColors` object literal can
produce: one of its own twelve entries (a `Color`), or a member
inherited from `Object.prototype` — a function or object, hence truthy
and returned by `parseColorInput`'s `if (color)` test even though it is
not a `Color`. -/
inductive JsValue where
  | color (c : Color)
  | protoMember (name : String)
deriving DecidableEq, Repr

/-- The (all-ASCII) property names an object literal inherits from the
standard `Object.prototype`; each holds a function (or, for
`__proto__`, the prototype object itself), all truthy. -/
def objectPrototypeMembers : List String :=
  [ "constructor", "hasOwnProperty", "isPrototypeOf", "propertyIsEnumerable"
  , "toLocaleString", "toString", "valueOf", "__proto__"
  , "__defineGetter__", "__defineSetter__", "__lookupGetter__", "__lookupSetter__" ]

/-- `namedColors[key]`: JS property access on the object literal — own
entries first, then the prototype chain; `none` models `undefined`
(falsy). -/
def lookupNamed (s : String) : Option JsValue :=
  match (namedColors.find? (fun p => p.1 == s)).map (fun p => p.2) with
  | some c => some (JsValue.color c)
  | none =>
    if objectPrototypeMembers.contains s then some (JsValue.protoMember s)
    else none

/-- A token of ASCII characters only.  On such tokens the JS
`toLowerCase()` (full Unicode case mapping) coincides with the
character-wise ASCII `Char.toLower` of `listToLower`; outside ASCII the
two diverge (e.g. U+212A KELVIN SIGN lowercases to `k` in JS), so the
named-table and error clauses below are stated for ASCII tokens only.
All twelve table keys and all `Object.prototype` member names are
ASCII. -/
def isAsciiString (s : String) : Bool := s.data.all (fun c => c.toNat < 128)

/-- `/^[0-9A-Fa-f]{6}$/.test(colorInput)`. -/
def matchesHex6 (s : String) : Bool :=
  s.data.length == 6 && s.data.all isHexDigitChar

/-- `colorInput.startsWith('#')`. -/
def startsWithHash (s : String) : Bool :=
  match s.data with
  | c :: _ => c == '#'
  | [] => false

/-- `parseColorInput` from `src/commands/format.ts`: the hex branch is
taken when the token starts with `#` OR consists of exactly six hex
digits; otherwise the lower-cased token is read off the `namedColors`
object (own entry or inherited `Object.prototype` member — both truthy,
both returned); only an `undefined` read throws the `INVALID_INPUT`
error carrying the token. -/
def parseColorInput (colorInput : String) : Except SFError JsValue :=
  if startsWithHash colorInput || matchesHex6 colorInput then
    Except.ok (JsValue.color (hexStringToColor colorInput))
  else
    match lookupNamed ⟨listToLower colorInput.data⟩ with
    | some v => Except.ok v
    | none => Except.error (SFError.invalidInput
        ("Invalid color format: " ++ colorInput ++
         ". Use hex (#RRGGBB) or named color (red, green, blue, etc.)"))

/-- Strip a single leading `#` if present (used only by the spec-side
definitions below). -/
def stripLeadingHash (l : List Char) : List Char :=
  match l with
  | c :: rest => if c = '#' then rest else l
  | [] => l

/-- Follows the spec's words (claim C2): a token of the regex form
`^#?[0-9A-Fa-f]{6}$` — after the optional leading `#`, exactly six hex
digits. -/
def specHexTokenForm (l : List Char) : Bool :=
  (stripLeadingHash l).length == 6 && (stripLeadingHash l).all isHexDigitChar

/-- Follows the spec's words (claim C2): strip the optional leading `#`,
read the three 2-hex-digit channels in order, divide each by 255, fix
alpha at `1`. -/
def specHexColor (l : List Char) : Color :=
  match stripLeadingHash l with
  | [a, b, c, d, e, f] =>
    { red := some ((((hexDigitVal a).getD 0 * 16 + (hexDigitVal b).getD 0 : ℕ) : ℚ) / 255)
      green := some ((((hexDigitVal c).getD 0 * 16 + (hexDigitVal d).getD 0 : ℕ) : ℚ) / 255)
      blue := some ((((hexDigitVal e).getD 0 * 16 + (hexDigitVal f).getD 0 : ℕ) : ℚ) / 255)
      alpha := some 1 }
  | _ => {}

/-! ## Lemmas about the range resolver -/

instance {ε α : Type} [DecidableEq ε] [DecidableEq α] : DecidableEq (Except ε α)
  | Except.ok x, Except.ok y =>
    if h : x = y then Decidable.isTrue (by rw [h]) else Decidable.isFalse (by simp [h])
  | Except.ok _, Except.error _ => Decidable.isFalse (by simp)
  | Except.error _, Except.ok _ => Decidable.isFalse (by simp)
  | Except.error e, Except.error f =>
    if h : e = f then Decidable.isTrue (by rw [h]) else Decidable.isFalse (by simp [h])

theorem splitOnBang_of_not_mem {l : List Char} (h : '!' ∉ l) : splitOnBang l = [l] := by
  induction l with
  | nil => rfl
  | cons c cs ih =>
    have hc : ¬c = '!' := fun hc => h (hc ▸ List.mem_cons_self c cs)
    have hcs : '!' ∉ cs := fun hm => h (List.mem_cons_of_mem c hm)
    simp only [splitOnBang, if_neg hc, ih hcs]

/-- A successful A1-pair match decomposes the input into its four capture
groups around the `:` separator, with each group drawn from its
character class. -/
theorem matchA1Pair_eq_some {l c1 d1 c2 d2 : List Char}
    (h : matchA1Pair l = some (c1, d1, c2, d2)) :
    l = c1 ++ (d1 ++ (':' :: (c2 ++ d2))) ∧
    (∀ c ∈ c1, isUpperAZ c) ∧ (∀ c ∈ d1, isDigit09 c) ∧
    (∀ c ∈ c2, isUpperAZ c) ∧ (∀ c ∈ d2, isDigit09 c) := by
  simp only [matchA1Pair] at h
  split at h
  · exact absurd h (by simp)
  · rename_i c rest3 heq
    split at h
    · rename_i hc
      split at h
      · rename_i hcond
        subst hc
        obtain ⟨-, -, -, -, hrest5⟩ := hcond
        rw [Option.some_inj, Prod.mk.injEq, Prod.mk.injEq, Prod.mk.injEq] at h
        obtain ⟨h1, h2, h3, h4⟩ := h
        subst h1; subst h2; subst h3; subst h4
        refine ⟨?_, fun c hc => List.mem_takeWhile_imp hc,
                fun c hc => List.mem_takeWhile_imp hc,
                fun c hc => List.mem_takeWhile_imp hc,
                fun c hc => List.mem_takeWhile_imp hc⟩
        have hR4 : rest3.dropWhile isUpperAZ =
            (rest3.dropWhile isUpperAZ).takeWhile isDigit09 := by
          conv_lhs => rw [← List.takeWhile_append_dropWhile isDigit09
            (rest3.dropWhile isUpperAZ)]
          rw [hrest5, List.append_nil]
        calc l = l.takeWhile isUpperAZ ++ l.dropWhile isUpperAZ :=
              (List.takeWhile_append_dropWhile isUpperAZ l).symm
          _ = l.takeWhile isUpperAZ ++
              ((l.dropWhile isUpperAZ).takeWhile isDigit09 ++
               (l.dropWhile isUpperAZ).dropWhile isDigit09) := by
              rw [List.takeWhile_append_dropWhile isDigit09 (l.dropWhile isUpperAZ)]
          _ = l.takeWhile isUpperAZ ++
              ((l.dropWhile isUpperAZ).takeWhile isDigit09 ++
               (':' :: rest3)) := by rw [heq]
          _ = l.takeWhile isUpperAZ ++
              ((l.dropWhile isUpperAZ).takeWhile isDigit09 ++
               (':' :: (rest3.takeWhile isUpperAZ ++ rest3.dropWhile isUpperAZ))) := by
              rw [List.takeWhile_append_dropWhile isUpperAZ rest3]
          _ = _ := by rw [← hR4]
      · exact absurd h (by simp)
    · exact absurd h (by simp)

/-- Every character that a successful A1-pair match consumes is an
uppercase letter, a digit, or the `:` separator — in particular never `!`. -/
theorem matchA1Pair_no_bang {l : List Char} {g} (h : matchA1Pair l = some g) :
    '!' ∉ l := by
  obtain ⟨c1, d1, c2, d2⟩ := g
  obtain ⟨hl, hc1, hd1, hc2, hd2⟩ := matchA1Pair_eq_some h
  intro hb
  rw [hl] at hb
  simp only [List.mem_append, List.mem_cons] at hb
  rcases hb with h' | h' | h' | h' | h'
  · exact absurd (hc1 _ h') (by decide)
  · exact absurd (hd1 _ h') (by decide)
  · exact absurd h' (by decide)
  · exact absurd (hc2 _ h') (by decide)
  · exact absurd (hd2 _ h') (by decide)

/-- An unqualified range string (no `!`) resolves with sheet id `0` and
without consulting the lookup: the result is determined by the A1 match
alone. -/
theorem rangeToGridRange_unqual (lookup : String → Option Int) (range : String)
    (h : '!' ∉ range.data) :
    rangeToGridRange lookup range =
      match matchA1Pair range.data with
      | none => Except.error (SFError.invalidInput
          ("Invalid range format: " ++ range ++ ". Use A1:B10 notation"))
      | some (c1, d1, c2, d2) =>
        Except.ok { sheetId := 0, startRowIndex := (decVal d1 : Int) - 1,
                    endRowIndex := (decVal d2 : Int),
                    startColumnIndex := columnToIndexL c1,
                    endColumnIndex := columnToIndexL c2 + 1 } := by
  simp only [rangeToGridRange, splitOnBang_of_not_mem h]

/-- A qualified range whose (non-empty) title fails the lookup yields a
`NOT_FOUND` error carrying the title verbatim. -/
theorem rangeToGridRange_qual_notFound (lookup : String → Option Int)
    (range : String) (t q : List Char) (rest : List (List Char))
    (hsplit : splitOnBang range.data = t :: q :: rest) (ht : t ≠ [])
    (hl : lookup ⟨t⟩ = none) :
    rangeToGridRange lookup range = Except.error (SFError.notFound "Sheet" ⟨t⟩) := by
  simp only [rangeToGridRange, hsplit, if_neg ht, hl]

/-- A qualified range whose title resolves to `sid` produces that sheet
id together with the A1 bounds of the part after the `!`. -/
theorem rangeToGridRange_qual_ok (lookup : String → Option Int)
    (range : String) (t q : List Char) (rest : List (List Char))
    (sid : Int) (c1 d1 c2 d2 : List Char)
    (hsplit : splitOnBang range.data = t :: q :: rest) (ht : t ≠ [])
    (hl : lookup ⟨t⟩ = some sid)
    (hm : matchA1Pair q = some (c1, d1, c2, d2)) :
    rangeToGridRange lookup range =
      Except.ok { sheetId := sid, startRowIndex := (decVal d1 : Int) - 1,
                  endRowIndex := (decVal d2 : Int),
                  startColumnIndex := columnToIndexL c1,
                  endColumnIndex := columnToIndexL c2 + 1 } := by
  simp only [rangeToGridRange, hsplit, if_neg ht, hl, hm]

/-! ## Lemmas about the format-request mask -/

/-- The mask condition of a `textFormat` subfield: false when the input
has no `textFormat` object, else the subfield's own condition. -/
def tfFlag (f : CellFormat) (g : TextFormat → Bool) : Bool :=
  match f.textFormat with
  | none => false
  | some tf => g tf

/-- The twelve mask names in the code's fixed evaluation order, each
paired with the condition under which `formatCells` pushes it. -/
def formatFieldFlags (f : CellFormat) : List (String × Bool) :=
  [ ("backgroundColor", ciTruthy f.backgroundColor)
  , ("textFormat.bold", tfFlag f (fun tf => tf.bold.isSome))
  , ("textFormat.italic", tfFlag f (fun tf => tf.italic.isSome))
  , ("textFormat.underline", tfFlag f (fun tf => tf.underline.isSome))
  , ("textFormat.strikethrough", tfFlag f (fun tf => tf.strikethrough.isSome))
  , ("textFormat.fontSize", tfFlag f (fun tf => numTruthy tf.fontSize))
  , ("textFormat.fontFamily", tfFlag f (fun tf => strTruthy tf.fontFamily))
  , ("textFormat.foregroundColor", tfFlag f (fun tf => ciTruthy tf.foregroundColor))
  , ("horizontalAlignment", strTruthy f.horizontalAlignment)
  , ("verticalAlignment", strTruthy f.verticalAlignment)
  , ("wrapStrategy", strTruthy f.wrapStrategy)
  , ("numberFormat", f.numberFormat.isSome) ]

theorem join_ifs_eq_filter_map (ps : List (String × Bool)) :
    (ps.map (fun p => if p.2 then [p.1] else [])).flatten =
      (ps.filter (fun p => p.2)).map Prod.fst := by
  induction ps with
  | nil => rfl
  | cons p ps ih =>
    rcases p with ⟨a, b⟩
    cases b <;> simp [List.filter_cons, ih]

/-- The mask emitted by `formatCells` is exactly the fixed-order name
list filtered by each field's truthiness condition. -/
theorem buildMask_eq_filter (f : CellFormat) :
    (buildCellFormatRequest f).2 =
      ((formatFieldFlags f).filter (fun p => p.2)).map Prod.fst := by
  rw [← join_ifs_eq_filter_map]
  rcases f with ⟨bg, tf, ha, va, ws, nf⟩
  cases tf <;>
    simp [buildCellFormatRequest, buildTextFormat, formatFieldFlags, tfFlag,
      List.append_assoc]

theorem mem_map_fst_of_filter {s : String} {ps : List (String × Bool)}
    (h : s ∈ (ps.filter (fun p => p.2)).map Prod.fst) :
    ∃ p ∈ ps, p.2 = true ∧ p.1 = s := by
  simp only [List.mem_map, List.mem_filter] at h
  obtain ⟨p, ⟨hmem, hp⟩, rfl⟩ := h
  exact ⟨p, hmem, by simpa using hp, rfl⟩

/-! ## Lemmas about the color parser -/

theorem removeFirst_of_not_mem {c : Char} {l : List Char} (h : c ∉ l) :
    removeFirst c l = l := by
  induction l with
  | nil => rfl
  | cons x xs ih =>
    have hx : ¬x = c := fun hx => h (hx ▸ List.mem_cons_self x xs)
    simp only [removeFirst, if_neg hx,
      ih (fun hm => h (List.mem_cons_of_mem x hm))]

theorem isHexDigitChar_exists {c : Char} (h : isHexDigitChar c = true) :
    ∃ d, hexDigitVal c = some d := by
  unfold isHexDigitChar at h
  exact Option.isSome_iff_exists.mp h

theorem parseIntHex_pair {a b : Char} {da db : ℕ}
    (ha : hexDigitVal a = some da) (hb : hexDigitVal b = some db) :
    parseIntHex ⟨[a, b]⟩ = some (da * 16 + db) := by
  simp [parseIntHex, hexRestVal, ha, hb]

theorem length_six_decomp {α : Type} {l : List α} (h : l.length = 6) :
    ∃ a b c d e f, l = [a, b, c, d, e, f] := by
  rcases l with _ | ⟨a, l⟩; · simp at h
  rcases l with _ | ⟨b, l⟩; · simp at h
  rcases l with _ | ⟨c, l⟩; · simp at h
  rcases l with _ | ⟨d, l⟩; · simp at h
  rcases l with _ | ⟨e, l⟩; · simp at h
  rcases l with _ | ⟨f, l⟩; · simp at h
  rcases l with _ | ⟨g, l⟩
  · exact ⟨a, b, c, d, e, f, rfl⟩
  · simp at h

/-- The hex branch of `parseColorInput` is taken whenever the token
starts with `#` or is six hex digits. -/
theorem parseColorInput_hexBranch {s : String}
    (h : startsWithHash s = true ∨ matchesHex6 s = true) :
    parseColorInput s = Except.ok (JsValue.color (hexStringToColor s)) := by
  unfold parseColorInput
  rcases h with h | h <;> rw [h] <;> simp

/-- The code's channel arithmetic on a six-hex-digit payload. -/
theorem hexColor_channels {s : String} {a b c d e f : Char} {da db dc dd de df : ℕ}
    (hrm : removeFirst '#' s.data = [a, b, c, d, e, f])
    (hda : hexDigitVal a = some da) (hdb : hexDigitVal b = some db)
    (hdc : hexDigitVal c = some dc) (hdd : hexDigitVal d = some dd)
    (hde : hexDigitVal e = some de) (hdf : hexDigitVal f = some df) :
    hexStringToColor s =
      { red := some (((da * 16 + db : ℕ) : ℚ) / 255)
        green := some (((dc * 16 + dd : ℕ) : ℚ) / 255)
        blue := some (((de * 16 + df : ℕ) : ℚ) / 255)
        alpha := some 1 } := by
  simp only [hexStringToColor, hrm]
  have h01 : jsSubstring ⟨[a, b, c, d, e, f]⟩ 0 2 = ⟨[a, b]⟩ := rfl
  have h23 : jsSubstring ⟨[a, b, c, d, e, f]⟩ 2 4 = ⟨[c, d]⟩ := rfl
  have h45 : jsSubstring ⟨[a, b, c, d, e, f]⟩ 4 6 = ⟨[e, f]⟩ := rfl
  rw [h01, h23, h45, parseIntHex_pair hda hdb, parseIntHex_pair hdc hdd,
    parseIntHex_pair hde hdf]
  rfl

/-- The spec-side channel formula on the same payload. -/
theorem specHexColor_channels {l : List Char} {a b c d e f : Char} {da db dc dd de df : ℕ}
    (hst : stripLeadingHash l = [a, b, c, d, e, f])
    (hda : hexDigitVal a = some da) (hdb : hexDigitVal b = some db)
    (hdc : hexDigitVal c = some dc) (hdd : hexDigitVal d = some dd)
    (hde : hexDigitVal e = some de) (hdf : hexDigitVal f = some df) :
    specHexColor l =
      { red := some (((da * 16 + db : ℕ) : ℚ) / 255)
        green := some (((dc * 16 + dd : ℕ) : ℚ) / 255)
        blue := some (((de * 16 + df : ℕ) : ℚ) / 255)
        alpha := some 1 } := by
  simp only [specHexColor, hst, hda, hdb, hdc, hdd, hde, hdf, Option.getD_some]

/-- A token of the spec's hex form takes the hex branch of
`parseColorInput`, and the code's channel arithmetic agrees with the
spec's 2-hex-digit-pairs-over-255 description. -/
theorem parseColorInput_specHex (s : String) (h : specHexTokenForm s.data = true) :
    parseColorInput s = Except.ok (JsValue.color (specHexColor s.data)) := by
  unfold specHexTokenForm at h
  rw [Bool.and_eq_true, beq_iff_eq] at h
  obtain ⟨hlen, hall⟩ := h
  obtain ⟨a, b, c, d, e, f, hdec⟩ := length_six_decomp hlen
  rw [hdec] at hall
  simp only [List.all_cons, List.all_nil, Bool.and_eq_true, Bool.and_true] at hall
  obtain ⟨hha, hhb, hhc, hhd, hhe, hhf⟩ := hall
  obtain ⟨da, hda⟩ := isHexDigitChar_exists hha
  obtain ⟨db, hdb⟩ := isHexDigitChar_exists hhb
  obtain ⟨dc, hdc⟩ := isHexDigitChar_exists hhc
  obtain ⟨dd, hdd⟩ := isHexDigitChar_exists hhd
  obtain ⟨de, hde⟩ := isHexDigitChar_exists hhe
  obtain ⟨df, hdf⟩ := isHexDigitChar_exists hhf
  have hnohash : '#' ∉ [a, b, c, d, e, f] := by
    intro hm
    simp only [List.mem_cons, List.not_mem_nil, or_false] at hm
    have hub : isHexDigitChar '#' = true := by
      rcases hm with rfl | rfl | rfl | rfl | rfl | rfl
      · exact hha
      · exact hhb
      · exact hhc
      · exact hhd
      · exact hhe
      · exact hhf
    exact absurd hub (by decide)
  have hmain : removeFirst '#' s.data = [a, b, c, d, e, f] ∧
      (startsWithHash s = true ∨ matchesHex6 s = true) := by
    rcases hsd : s.data with _ | ⟨x, rest⟩
    · rw [hsd] at hdec; exact absurd hdec (by simp [stripLeadingHash])
    · rw [hsd] at hdec
      by_cases hx : x = '#'
      · subst hx
        simp [stripLeadingHash] at hdec
        constructor
        · simp [removeFirst, hdec]
        · left; unfold startsWithHash; rw [hsd]; rfl
      · simp only [stripLeadingHash, if_neg hx] at hdec
        constructor
        · rw [hdec]; exact removeFirst_of_not_mem hnohash
        · right
          unfold matchesHex6
          rw [hsd, hdec]
          simp [hha, hhb, hhc, hhd, hhe, hhf]
  obtain ⟨hrm, hbranch⟩ := hmain
  rw [parseColorInput_hexBranch hbranch,
    hexColor_channels hrm hda hdb hdc hdd hde hdf,
    specHexColor_channels hdec hda hdb hdc hdd hde hdf]

/-- A token that neither starts with `#` nor is six hex digits falls to
the `namedColors` object read; any truthy result (own table entry or
inherited prototype member) is returned. -/
theorem parseColorInput_lookupSome (s : String) (v : JsValue)
    (h1 : startsWithHash s = false) (h2 : matchesHex6 s = false)
    (h3 : lookupNamed ⟨listToLower s.data⟩ = some v) :
    parseColorInput s = Except.ok v := by
  simp [parseColorInput, h1, h2, h3]

/-- A token that takes neither the hex branch nor the named table fails
with an INVALID_INPUT error carrying the token. -/
theorem parseColorInput_invalid (s : String)
    (h1 : startsWithHash s = false) (h2 : matchesHex6 s = false)
    (h3 : lookupNamed ⟨listToLower s.data⟩ = none) :
    parseColorInput s = Except.error (SFError.invalidInput
      ("Invalid color format: " ++ s ++
       ". Use hex (#RRGGBB) or named color (red, green, blue, etc.)")) := by
  simp [parseColorInput, h1, h2, h3]

/-! ## Claims -/

/-- Claim C1, counterexample: `rangeToGridRange` does not strip single
quotes from the sheet-title part.  With a lookup mapping the title
`My Sheet` to id 7 (and nothing else), resolving `'My Sheet'!C3:D4`
fails with NOT_FOUND for the verbatim key `'My Sheet'` instead of
yielding sheet id 7 with columns [2,4) and rows [2,4) as the claim
states. -/
theorem claim_C1_counterexample :
    rangeToGridRange (fun t => if t = "My Sheet" then some 7 else none)
        "'My Sheet'!C3:D4" =
      Except.error (SFError.notFound "Sheet" "'My Sheet'") ∧
    rangeToGridRange (fun t => if t = "My Sheet" then some 7 else none)
        "'My Sheet'!C3:D4" ≠
      Except.ok { sheetId := 7, startRowIndex := 2, endRowIndex := 4,
                  startColumnIndex := 2, endColumnIndex := 4 } :=
  ⟨rfl, by decide⟩

/-- Claim C1, amended: the resolver performs no quote stripping — the
sheet-title part of a qualified range, quotes included, is itself the
sheet-lookup key.  Resolving `'My Sheet'!C3:D4` against a lookup that
maps the verbatim title `'My Sheet'` to id `sid` yields sheet id `sid`
with start column 2, end column exclusive 4, start row 2, end row
exclusive 4. -/
theorem claim_C1_amended (lookup : String → Option Int) (sid : Int)
    (h : lookup "'My Sheet'" = some sid) :
    rangeToGridRange lookup "'My Sheet'!C3:D4" =
      Except.ok { sheetId := sid, startRowIndex := 2, endRowIndex := 4,
                  startColumnIndex := 2, endColumnIndex := 4 } :=
  rangeToGridRange_qual_ok lookup "'My Sheet'!C3:D4"
    "'My Sheet'".data "C3:D4".data [] sid ['C'] ['3'] ['D'] ['4'] rfl (by decide) h rfl

/-- Claim C1, witness for the amended theorem at a concrete lookup. -/
theorem claim_C1_witness :
    (fun t => if t = "'My Sheet'" then some (7 : Int) else none) "'My Sheet'" = some 7 ∧
    rangeToGridRange (fun t => if t = "'My Sheet'" then some (7 : Int) else none)
        "'My Sheet'!C3:D4" =
      Except.ok { sheetId := 7, startRowIndex := 2, endRowIndex := 4,
                  startColumnIndex := 2, endColumnIndex := 4 } :=
  ⟨by decide, claim_C1_amended _ 7 (by decide)⟩

/-- Claim C2, counterexample: `#AABBCCDD` matches neither the hex form
`^#?[0-9A-Fa-f]{6}$` nor any named color, yet `parseColorInput` returns
a color for it (the hex branch is taken for every token starting with
`#`); and `constructor` also matches neither form, yet instead of the
invalid-token error the parser returns the truthy `Object.prototype`
member that the object-literal lookup inherits.  Both contradict "it
never returns a color for a token matching neither form ... otherwise
it fails with an invalid-token error". -/
theorem claim_C2_counterexample :
    specHexTokenForm "#AABBCCDD".data = false ∧
    lookupNamed ⟨listToLower "#AABBCCDD".data⟩ = none ∧
    parseColorInput "#AABBCCDD" =
      Except.ok (JsValue.color
        { red := some (((170 : ℕ) : ℚ) / 255)
          green := some (((187 : ℕ) : ℚ) / 255)
          blue := some (((204 : ℕ) : ℚ) / 255)
          alpha := some 1 }) ∧
    specHexTokenForm "constructor".data = false ∧
    namedColors.find? (fun p => p.1 == "constructor") = none ∧
    parseColorInput "constructor" = Except.ok (JsValue.protoMember "constructor") :=
  ⟨rfl, rfl, rfl, rfl, rfl, rfl⟩

/-- Claim C2, amended: a token matching `^#?[0-9A-Fa-f]{6}$` yields the
hex color whose channels are the 2-hex-digit pairs divided by 255 with
alpha 1.  For an ASCII token that does not start with `#` and is not
six hex digits, the lower-cased token is read off the `namedColors`
object: an own entry yields that fixed literal — in particular `orange`
and `ORANGE` both yield exactly `{1.0, 0.65, 0.0, 1.0}` — an inherited
`Object.prototype` member name (such as `constructor`) yields that
truthy non-color member, and only an `undefined` read fails with the
invalid-token error carrying the original token and a format hint.
(Tokens that start with `#` but do not match the hex form still take
the hex branch; non-ASCII tokens are outside this statement because JS
Unicode lowercasing is not modelled.) -/
theorem claim_C2_amended :
    (∀ s : String, specHexTokenForm s.data = true →
      parseColorInput s = Except.ok (JsValue.color (specHexColor s.data))) ∧
    (∀ (s : String) (v : JsValue), isAsciiString s = true →
      startsWithHash s = false → matchesHex6 s = false →
      lookupNamed ⟨listToLower s.data⟩ = some v → parseColorInput s = Except.ok v) ∧
    (∀ s : String, isAsciiString s = true →
      startsWithHash s = false → matchesHex6 s = false →
      lookupNamed ⟨listToLower s.data⟩ = none →
      parseColorInput s = Except.error (SFError.invalidInput
        ("Invalid color format: " ++ s ++
         ". Use hex (#RRGGBB) or named color (red, green, blue, etc.)"))) ∧
    parseColorInput "orange" =
      Except.ok (JsValue.color
        { red := some 1, green := some 0.65, blue := some 0, alpha := some 1 }) ∧
    parseColorInput "ORANGE" =
      Except.ok (JsValue.color
        { red := some 1, green := some 0.65, blue := some 0, alpha := some 1 }) ∧
    parseColorInput "constructor" = Except.ok (JsValue.protoMember "constructor") :=
  ⟨parseColorInput_specHex,
   fun s v _ h1 h2 h3 => parseColorInput_lookupSome s v h1 h2 h3,
   fun s _ h1 h2 h3 => parseColorInput_invalid s h1 h2 h3, rfl, rfl, rfl⟩

/-- Claim C2, witness: the amended theorem applied at `#4285f4` (hex
form), `gray` (own table entry), `__proto__` (inherited prototype
member), and `notacolor` (invalid). -/
theorem claim_C2_witness :
    specHexTokenForm "#4285f4".data = true ∧
    parseColorInput "#4285f4" =
      Except.ok (JsValue.color
        { red := some (((66 : ℕ) : ℚ) / 255)
          green := some (((133 : ℕ) : ℚ) / 255)
          blue := some (((244 : ℕ) : ℚ) / 255)
          alpha := some 1 }) ∧
    isAsciiString "gray" = true ∧
    parseColorInput "gray" =
      Except.ok (JsValue.color
        { red := some 0.5, green := some 0.5, blue := some 0.5, alpha := some 1 }) ∧
    isAsciiString "__proto__" = true ∧
    parseColorInput "__proto__" = Except.ok (JsValue.protoMember "__proto__") ∧
    isAsciiString "notacolor" = true ∧
    parseColorInput "notacolor" = Except.error (SFError.invalidInput
      "Invalid color format: notacolor. Use hex (#RRGGBB) or named color (red, green, blue, etc.)") :=
  ⟨rfl, claim_C2_amended.1 "#4285f4" rfl,
   rfl, claim_C2_amended.2.1 "gray"
     (JsValue.color { red := some 0.5, green := some 0.5, blue := some 0.5, alpha := some 1 })
     rfl rfl rfl rfl,
   rfl, claim_C2_amended.2.1 "__proto__" (JsValue.protoMember "__proto__") rfl rfl rfl rfl,
   rfl, claim_C2_amended.2.2.1 "notacolor" rfl rfl rfl rfl⟩

/-- Claim C3, counterexample: for `{top: {style: SOLID}}` with no color,
the emitted top-edge color is `{red: 0, green: 0, blue: 0}` with NO
alpha channel — not the `{0,0,0,1}` the claim states. -/
theorem claim_C3_counterexample :
    applyBordersRequests (fun _ => none) "A1:B2"
        { top := some { style := some "SOLID" } } =
      Except.ok [{ range := { sheetId := 0, startRowIndex := 0, endRowIndex := 2,
                              startColumnIndex := 0, endColumnIndex := 2 },
                   top := some { style := "SOLID",
                                 color := { red := some 0, green := some 0,
                                            blue := some 0 } } }] ∧
    ({ red := some 0, green := some 0, blue := some 0 } : Color).alpha ≠ some 1 :=
  ⟨rfl, by decide⟩

/-- Claim C3, amended: the border-request builder emits `{style, color}`
for exactly the edges present in the spec (absent edges are omitted
entirely), and an edge requested without a color gets black
`{red: 0, green: 0, blue: 0}` with the alpha channel omitted; in
particular `{top: {style: SOLID}}` yields a request with a top edge
colored alpha-less black and no bottom, left, or right edge. -/
theorem claim_C3_amended :
    (∀ edge : BorderStyleSpec, edge.color = none →
      (buildBorderEdge edge).color = { red := some 0, green := some 0, blue := some 0 }) ∧
    (∀ (lookup : String → Option Int) (range : String) (b : Borders) (g : GridRange),
      rangeToGridRange lookup range = Except.ok g →
      applyBordersRequests lookup range b =
        Except.ok [{ range := g
                     top := b.top.map buildBorderEdge
                     bottom := b.bottom.map buildBorderEdge
                     left := b.left.map buildBorderEdge
                     right := b.right.map buildBorderEdge }]) ∧
    applyBordersRequests (fun _ => none) "A1:B2"
        { top := some { style := some "SOLID" } } =
      Except.ok [{ range := { sheetId := 0, startRowIndex := 0, endRowIndex := 2,
                              startColumnIndex := 0, endColumnIndex := 2 },
                   top := some { style := "SOLID",
                                 color := { red := some 0, green := some 0,
                                            blue := some 0 } } }] := by
  refine ⟨?_, ?_, rfl⟩
  · intro edge h
    simp [buildBorderEdge, h]
  · intro lookup range b g h
    unfold applyBordersRequests
    rw [h]

/-- Claim C3, witness: the amended theorem applied at a color-less
dotted edge and at a two-edge border spec on `A1:B2`. -/
theorem claim_C3_witness :
    ({ style := some "DOTTED" } : BorderStyleSpec).color = none ∧
    (buildBorderEdge { style := some "DOTTED" }).color =
      { red := some 0, green := some 0, blue := some 0 } ∧
    rangeToGridRange (fun _ => none) "A1:B2" =
      Except.ok { sheetId := 0, startRowIndex := 0, endRowIndex := 2,
                  startColumnIndex := 0, endColumnIndex := 2 } ∧
    applyBordersRequests (fun _ => none) "A1:B2"
        { bottom := some { style := some "DASHED" }, left := some {} } =
      Except.ok [{ range := { sheetId := 0, startRowIndex := 0, endRowIndex := 2,
                              startColumnIndex := 0, endColumnIndex := 2 }
                   top := (none : Option BorderStyleSpec).map buildBorderEdge
                   bottom := (some { style := some "DASHED" } :
                       Option BorderStyleSpec).map buildBorderEdge
                   left := (some {} : Option BorderStyleSpec).map buildBorderEdge
                   right := (none : Option BorderStyleSpec).map buildBorderEdge }] :=
  ⟨rfl, claim_C3_amended.1 _ rfl, rfl, claim_C3_amended.2.1 _ _ _ _ rfl⟩

set_option maxRecDepth 100000 in
/-- Claim C4: column-letter conversion uses base-26 arithmetic with
`A`→0 through `Z`→25, `AA`→26, etc., and round-trips: for every `i` in
[0, 701], converting `i` to its letter sequence and back through
`columnToIndex` yields `i`. -/
theorem claim_C4 : ∀ i : Nat, i < 702 → columnToIndex (indexToColumn i) = (i : Int) := by
  decide

/-- Claim C4, witness at the top of the range (`ZZ`). -/
theorem claim_C4_witness :
    701 < 702 ∧ columnToIndex (indexToColumn 701) = (701 : Int) :=
  ⟨by decide, claim_C4 701 (by decide)⟩

/-- Claim C5: every string matching `^([A-Z]+)(\d+):([A-Z]+)(\d+)$`
resolves to a zero-based, end-exclusive grid range: start row is the
1-based input row minus 1, end row is the 1-based end row used as-is as
the exclusive bound, and end column is the converted end-column index
plus 1 (sheet id 0, since such strings contain no `!`). -/
theorem claim_C5 (lookup : String → Option Int) (l c1 d1 c2 d2 : List Char)
    (h : matchA1Pair l = some (c1, d1, c2, d2)) :
    rangeToGridRange lookup ⟨l⟩ =
      Except.ok { sheetId := 0, startRowIndex := (decVal d1 : Int) - 1,
                  endRowIndex := (decVal d2 : Int),
                  startColumnIndex := columnToIndexL c1,
                  endColumnIndex := columnToIndexL c2 + 1 } := by
  have hnb : '!' ∉ (⟨l⟩ : String).data := matchA1Pair_no_bang h
  rw [rangeToGridRange_unqual lookup ⟨l⟩ hnb]
  have hd : (⟨l⟩ : String).data = l := rfl
  rw [hd, h]

/-- Claim C5, witness: `A1:B2` yields start column 0, end column
exclusive 2, start row 0, end row exclusive 2. -/
theorem claim_C5_witness :
    matchA1Pair "A1:B2".data = some (['A'], ['1'], ['B'], ['2']) ∧
    rangeToGridRange (fun _ => none) "A1:B2" =
      Except.ok { sheetId := 0, startRowIndex := 0, endRowIndex := 2,
                  startColumnIndex := 0, endColumnIndex := 2 } :=
  ⟨rfl, claim_C5 (fun _ => none) "A1:B2".data ['A'] ['1'] ['B'] ['2'] rfl⟩

/-- Claim C7: a range string without a `!` separator never consults the
sheet lookup (the result is the same under any two lookups) and, when it
resolves, carries the default sheet identifier 0. -/
theorem claim_C7 (lookup lookup2 : String → Option Int) (range : String)
    (h : '!' ∉ range.data) :
    rangeToGridRange lookup range = rangeToGridRange lookup2 range ∧
    ∀ g : GridRange, rangeToGridRange lookup range = Except.ok g → g.sheetId = 0 := by
  constructor
  · rw [rangeToGridRange_unqual lookup range h, rangeToGridRange_unqual lookup2 range h]
  · intro g hg
    rw [rangeToGridRange_unqual lookup range h] at hg
    rcases hm : matchA1Pair range.data with _ | ⟨⟨c1, d1, c2, d2⟩⟩ <;> rw [hm] at hg
    · exact absurd hg (by simp)
    · simp only [Except.ok.injEq] at hg
      rw [← hg]

/-- Claim C7, witness: `A1:B2` under two different lookups. -/
theorem claim_C7_witness :
    ('!' ∉ "A1:B2".data) ∧
    rangeToGridRange (fun _ => some 5) "A1:B2" = rangeToGridRange (fun _ => none) "A1:B2" ∧
    ({ sheetId := 0, startRowIndex := 0, endRowIndex := 2, startColumnIndex := 0,
       endColumnIndex := 2 } : GridRange).sheetId = 0 :=
  ⟨by decide, (claim_C7 (fun _ => some 5) (fun _ => none) "A1:B2" (by decide)).1,
   (claim_C7 (fun _ => some 5) (fun _ => none) "A1:B2" (by decide)).2 _ rfl⟩

/-- Claim C8: an unqualified range token that fails the A1 grammar is
rejected with an INVALID_INPUT error whose message carries the raw
input (never a silent default range), and a qualified title with no
lookup match is rejected with NOT_FOUND carrying the title. -/
theorem claim_C8 :
    (∀ (lookup : String → Option Int) (range : String), '!' ∉ range.data →
      matchA1Pair range.data = none →
      rangeToGridRange lookup range = Except.error (SFError.invalidInput
        ("Invalid range format: " ++ range ++ ". Use A1:B10 notation"))) ∧
    (∀ (lookup : String → Option Int) (range : String) (t q : List Char)
      (rest : List (List Char)),
      splitOnBang range.data = t :: q :: rest → t ≠ [] → lookup ⟨t⟩ = none →
      rangeToGridRange lookup range = Except.error (SFError.notFound "Sheet" ⟨t⟩)) := by
  constructor
  · intro lookup range h hm
    rw [rangeToGridRange_unqual lookup range h, hm]
  · exact rangeToGridRange_qual_notFound

/-- Claim C8, witness: the malformed token `A1-B2` and the unknown
qualified sheet `Nope!A1:B2`. -/
theorem claim_C8_witness :
    ('!' ∉ "A1-B2".data) ∧ matchA1Pair "A1-B2".data = none ∧
    rangeToGridRange (fun _ => none) "A1-B2" = Except.error (SFError.invalidInput
      "Invalid range format: A1-B2. Use A1:B10 notation") ∧
    splitOnBang "Nope!A1:B2".data = ["Nope".data, "A1:B2".data] ∧
    rangeToGridRange (fun _ => none) "Nope!A1:B2" =
      Except.error (SFError.notFound "Sheet" "Nope") :=
  ⟨by decide, rfl, claim_C8.1 (fun _ => none) "A1-B2" (by decide) rfl,
   rfl, claim_C8.2 (fun _ => none) "Nope!A1:B2" "Nope".data "A1:B2".data [] rfl
     (by decide) rfl⟩

/-- Claim C6, counterexample: `{textFormat: {fontFamily: ""}}` has
`fontFamily` set in the input spec, yet the builder mirrors nothing and
emits an empty mask (the code tests truthiness, not presence, for
`fontFamily`), so the mask does not name exactly the set fields. -/
theorem claim_C6_counterexample :
    ({ textFormat := some { fontFamily := some "" } } : CellFormat).textFormat =
      some { fontFamily := some "" } ∧
    buildCellFormatRequest { textFormat := some { fontFamily := some "" } } =
      ({ textFormat := some {} }, []) :=
  ⟨rfl, rfl⟩

/-- Claim C6, amended: the field mask names exactly the fields the code
treats as set — presence (not `undefined`) for the four text booleans,
truthiness (non-empty / non-zero) for `backgroundColor`,
`fontSize`, `fontFamily`, `foregroundColor`, the alignments and
`wrapStrategy`, presence for `numberFormat` — listed in the fixed
evaluation order backgroundColor, textFormat.{bold, italic, underline,
strikethrough, fontSize, fontFamily, foregroundColor},
horizontalAlignment, verticalAlignment, wrapStrategy, numberFormat; in
particular a spec with only `{bold: true}` yields a mask containing
exactly `"textFormat.bold"`. -/
theorem claim_C6_amended :
    (∀ f : CellFormat, (buildCellFormatRequest f).2 =
      ((formatFieldFlags f).filter (fun p => p.2)).map Prod.fst) ∧
    (buildCellFormatRequest { textFormat := some { bold := some true } }).2 =
      ["textFormat.bold"] :=
  ⟨buildMask_eq_filter, rfl⟩

/-- Claim C9: with zero fields set the builder still produces a valid
empty request — empty payload, empty field list, mask string
`userEnteredFormat()` — and `formatCells` still issues the single
`repeatCell` request. -/
theorem claim_C9 :
    buildCellFormatRequest {} = ({}, []) ∧
    (∀ (lookup : String → Option Int) (range : String) (g : GridRange),
      rangeToGridRange lookup range = Except.ok g →
      formatCellsRequests lookup range {} =
        Except.ok [{ range := g, cell := {}, fields := "userEnteredFormat()" }]) := by
  refine ⟨rfl, ?_⟩
  intro lookup range g h
  unfold formatCellsRequests
  rw [h]
  rfl

/-- Claim C9, witness: the empty format on `B2:C3`. -/
theorem claim_C9_witness :
    rangeToGridRange (fun _ => none) "B2:C3" =
      Except.ok { sheetId := 0, startRowIndex := 1, endRowIndex := 3,
                  startColumnIndex := 1, endColumnIndex := 3 } ∧
    formatCellsRequests (fun _ => none) "B2:C3" {} =
      Except.ok [{ range := { sheetId := 0, startRowIndex := 1, endRowIndex := 3,
                              startColumnIndex := 1, endColumnIndex := 3 },
                   cell := {}, fields := "userEnteredFormat()" }] :=
  ⟨rfl, claim_C9.2 (fun _ => none) "B2:C3" _ rfl⟩

/-- Claim C10: whenever the input spec has a `textFormat` object, the
emitted payload contains a `textFormat` object; when none of its
subfields is set the payload's `textFormat` is the empty object and the
mask contains no `textFormat.*` entry (only top-level names can
appear). -/
theorem claim_C10 (f : CellFormat) (tf : TextFormat) (h : f.textFormat = some tf) :
    (buildCellFormatRequest f).1.textFormat = some (buildTextFormat tf).1 ∧
    (tf = {} →
      (buildCellFormatRequest f).1.textFormat = some ({} : TextFormatPayload) ∧
      ∀ s ∈ (buildCellFormatRequest f).2,
        s ∈ (["backgroundColor", "horizontalAlignment", "verticalAlignment",
              "wrapStrategy", "numberFormat"] : List String)) := by
  constructor
  · simp [buildCellFormatRequest, h]
  · rintro rfl
    constructor
    · simp [buildCellFormatRequest, h]
      rfl
    · intro s hs
      rw [buildMask_eq_filter] at hs
      obtain ⟨p, hp, hp2, rfl⟩ := mem_map_fst_of_filter hs
      simp only [formatFieldFlags, List.mem_cons, List.not_mem_nil, or_false] at hp
      rcases hp with rfl | rfl | rfl | rfl | rfl | rfl | rfl | rfl | rfl | rfl | rfl | rfl <;>
        simp_all [tfFlag, numTruthy, strTruthy, ciTruthy]

/-- Claim C10, witness: a spec whose `textFormat` object has no
subfield set. -/
theorem claim_C10_witness :
    ({ textFormat := some {} } : CellFormat).textFormat = some ({} : TextFormat) ∧
    (buildCellFormatRequest { textFormat := some {} }).1.textFormat =
      some ({} : TextFormatPayload) ∧
    (buildCellFormatRequest { textFormat := some {} }).2 = [] :=
  ⟨rfl, ((claim_C10 { textFormat := some {} } {} rfl).2 rfl).1, rfl⟩

end SheetFreak

